import Mathlib

/-!
Verification of the last.fm acquisition/aggregation pipeline

Shallow embedding of `src/last_fm_functions.py` and `src/last_fm_main.py`.
Remote HTTP is modelled as a pure function from the request-parameter
dictionary to a response value; the Python `dict` of request parameters is
modelled as an association list threaded through each loop (Python mutates
the caller's dict in place; here the final dict is returned alongside the
result).  `pandas` DataFrames are modelled as Lean lists of row structures;
`pd.json_normalize` of a list of uniform JSON records is one row per
element.  `pd.DataFrame.drop(columns=["image"])` raises `KeyError` when the
frame has no `image` column — which is exactly the case of an empty frame
here — and is modelled with `Except`.
-/

set_option autoImplicit false

namespace LastFm

/-- A request-parameter value: Python code stores both strings and ints in
the `request_params` dict. -/
inductive PVal where
  | str (s : String)
  | num (n : Nat)
deriving DecidableEq, Repr

/-- The `request_params` dict, as an insertion-ordered association list
(Python dict semantics: updating an existing key keeps its position, a new
key is appended). -/
abbrev Params := List (String × PVal)

/-- `request_params[k] = v` — update in place if `k` is present, else append. -/
def setParam (ps : Params) (k : String) (v : PVal) : Params :=
  if ps.any (fun kv => kv.1 = k) then
    ps.map (fun kv => if kv.1 = k then (k, v) else kv)
  else
    ps ++ [(k, v)]

/-- Read a key from the dict (`None` when absent). -/
def getParam (ps : Params) (k : String) : Option PVal :=
  (ps.find? (fun kv => kv.1 = k)).map (fun kv => kv.2)

theorem find?_map_update_self (ps : Params) (k : String) (v : PVal)
    (h : ps.any (fun kv => kv.1 = k) = true) :
    (ps.map (fun kv => if kv.1 = k then (k, v) else kv)).find?
      (fun kv => kv.1 = k) = some (k, v) := by
  induction ps with
  | nil => simp at h
  | cons kv rest ih =>
    by_cases hk : kv.1 = k
    · simp [List.find?, hk]
    · simp only [List.any_cons, Bool.or_eq_true, decide_eq_true_eq] at h
      rcases h with h | h
      · exact absurd h hk
      · simpa [List.find?, hk] using ih h

theorem find?_map_update_ne (ps : Params) (k k' : String) (v : PVal)
    (hne : k ≠ k') :
    (ps.map (fun kv => if kv.1 = k then (k, v) else kv)).find?
      (fun kv => kv.1 = k') = ps.find? (fun kv => kv.1 = k') := by
  induction ps with
  | nil => simp
  | cons kv rest ih =>
    rw [List.map_cons]
    by_cases hk : kv.1 = k
    · have hk' : ¬ kv.1 = k' := fun hc => hne (hk ▸ hc)
      rw [if_pos hk, List.find?_cons_of_neg _ (by simp [hne]),
        List.find?_cons_of_neg _ (by simp [hk']), ih]
    · by_cases hk' : kv.1 = k'
      · rw [if_neg hk, List.find?_cons_of_pos _ (by simp [hk']),
          List.find?_cons_of_pos _ (by simp [hk'])]
      · rw [if_neg hk, List.find?_cons_of_neg _ (by simp [hk']),
          List.find?_cons_of_neg _ (by simp [hk']), ih]

theorem find?_append_single_self (ps : Params) (k : String) (v : PVal)
    (h : ps.any (fun kv => kv.1 = k) = false) :
    (ps ++ [(k, v)]).find? (fun kv => kv.1 = k) = some (k, v) := by
  induction ps with
  | nil => simp [List.find?]
  | cons kv rest ih =>
    have h1 : ¬ kv.1 = k := by
      intro hc
      simp [List.any_cons, hc] at h
    have h2 : rest.any (fun kv => kv.1 = k) = false := by
      simp only [List.any_cons, Bool.or_eq_false_iff] at h
      exact h.2
    rw [List.cons_append, List.find?_cons_of_neg _ (by simp [h1]), ih h2]

theorem find?_append_single_ne (ps : Params) (k k' : String) (v : PVal)
    (hne : k ≠ k') :
    (ps ++ [(k, v)]).find? (fun kv => kv.1 = k') =
      ps.find? (fun kv => kv.1 = k') := by
  induction ps with
  | nil => simp [List.find?, hne]
  | cons kv rest ih =>
    by_cases hk' : kv.1 = k'
    · rw [List.cons_append, List.find?_cons_of_pos _ (by simp [hk']),
        List.find?_cons_of_pos _ (by simp [hk'])]
    · rw [List.cons_append, List.find?_cons_of_neg _ (by simp [hk']),
        List.find?_cons_of_neg _ (by simp [hk']), ih]

theorem getParam_setParam_self (ps : Params) (k : String) (v : PVal) :
    getParam (setParam ps k v) k = some v := by
  unfold setParam getParam
  by_cases h : ps.any (fun kv => kv.1 = k)
  · rw [if_pos h, find?_map_update_self ps k v h]
    rfl
  · rw [if_neg h, find?_append_single_self ps k v (Bool.eq_false_iff.mpr h)]
    rfl

theorem getParam_setParam_ne (ps : Params) (k k' : String) (v : PVal)
    (hne : k ≠ k') : getParam (setParam ps k v) k' = getParam ps k' := by
  unfold setParam getParam
  by_cases h : ps.any (fun kv => kv.1 = k)
  · rw [if_pos h, find?_map_update_ne ps k k' v hne]
  · rw [if_neg h, find?_append_single_ne ps k k' v hne]

/-! ## The remote service and the Rate-Limited Query Executor -/

/-- One artist element of the JSON response list
(`response[outer_col]["artist"]` resp. `response["artists"]["artist"]`).
Fields are the ones the pipeline touches; counts arrive as JSON strings. -/
structure ArtistJson where
  name : String
  mbid : String
  listeners : String
  playcount : String
  image : String
deriving DecidableEq, Repr

/-- A remote response for the artist endpoints: HTTP status plus the
already-located nested record list of the named outer field. -/
structure ArtistResponse where
  status : Nat
  artists : List ArtistJson
deriving DecidableEq, Repr

/-- `_send_last_fm_artist_request`: one request; on status 200 parse the
outer field's nested list into one record per element
(`pd.json_normalize`), otherwise return an empty DataFrame.  No retry, no
exception on a non-success status. -/
def sendLastFmArtistRequest (resp : ArtistResponse) : List ArtistJson :=
  if resp.status = 200 then resp.artists else []

/-- Instrumented executor: also returns the list of requests issued (always
exactly one — the function body performs a single `requests.get`). -/
def sendLastFmArtistRequestT (remote : Params → ArtistResponse) (ps : Params) :
    List Params × List ArtistJson :=
  ([ps], sendLastFmArtistRequest (remote ps))

/-! ## Geographic mode: `get_countries_top_artists` -/

/-- A row of the per-country frame after `drop(columns=["image"])` and the
added `country_rank` / `country` columns. -/
structure CountryRow where
  name : String
  mbid : String
  listeners : String
  playcount : String
  country_rank : Nat
  country : String
deriving DecidableEq, Repr

/-- `country_name_changes` lookup: `if country in changes: country =
changes[country]` — also the shape of `.map(mapping).fillna(original)`
(forward lookup with pass-through default). -/
def applyNameChange (changes : List (String × String)) (c : String) : String :=
  match changes.find? (fun kv => kv.1 = c) with
  | some kv => kv.2
  | none => c

/-- The world-map column remap
`world_map["country"].map(country_name_mappings).fillna(world_map["country"])`:
mapped names are translated, unmapped names pass through; no row is dropped. -/
def mapCountryNames (mapping : List (String × String)) (names : List String) :
    List String :=
  names.map (applyNameChange mapping)

/-- Drop the `image` column, add `country_rank = index + 1` and the
`country` column. -/
def rankCountryRows (df : List ArtistJson) (country : String) : List CountryRow :=
  ((List.range df.length).zip df).map (fun ia =>
    { name := ia.2.name, mbid := ia.2.mbid, listeners := ia.2.listeners,
      playcount := ia.2.playcount, country_rank := ia.1 + 1, country := country })

/-- The country loop of `get_countries_top_artists`.  Returns the final
request-params dict, the trace of country keys actually requested, and the
accruing concatenated frame.  An empty per-country frame (remote failure)
is skipped by the `if len(country_artist_df) > 0` guard and the loop
continues. -/
def geoLoop (remote : Params → ArtistResponse)
    (changes : List (String × String)) :
    List String → Params → List String → List CountryRow →
    Params × List String × List CountryRow
  | [], ps, trace, acc => (ps, trace, acc)
  | c :: rest, ps, trace, acc =>
    let c' := applyNameChange changes c
    let ps' := setParam ps "country" (.str c')
    let df := sendLastFmArtistRequest (remote ps')
    let acc' := if 0 < df.length then acc ++ rankCountryRows df c' else acc
    geoLoop remote changes rest ps' (trace ++ [c']) acc'

/-- `get_countries_top_artists` (the acquisition loop; the trailing
`astype(float)` coercion of the `listeners` column neither reorders nor
drops rows of a non-empty frame and is not modelled beyond the row strings). -/
def getCountriesTopArtists (remote : Params → ArtistResponse)
    (countries : List String) (changes : List (String × String))
    (ps : Params) : Params × List String × List CountryRow :=
  geoLoop remote changes countries ps [] []

/-! ## Chart mode: `get_top_artists` -/

/-- A row of the chart frame after `drop(columns=["image"])` and the added
`rank` column. -/
structure ChartRow where
  name : String
  mbid : String
  listeners : String
  playcount : String
  rank : Nat
deriving DecidableEq, Repr

/-- `int(np.ceil(n_artists / artists_per_page))` (exact ceiling division). -/
def ceilDiv (a b : Nat) : Nat := (a + b - 1) / b

/-- `top_artists.drop(columns=["image"], inplace=True)` followed by
`top_artists["rank"] = (top_artists.index + 1) + 200 * (page - 1)`.
`drop` raises `KeyError` when the frame has no `image` column, which is the
case exactly when the frame is empty (a failed or empty response); the
`200` is the literal in the source, independent of `artists_per_page`. -/
def chartRowsE (df : List ArtistJson) (page : Nat) :
    Except String (List ChartRow) :=
  if df.isEmpty then .error "KeyError: image"
  else .ok (((List.range df.length).zip df).map (fun ia =>
    { name := ia.2.name, mbid := ia.2.mbid, listeners := ia.2.listeners,
      playcount := ia.2.playcount, rank := (ia.1 + 1) + 200 * (page - 1) }))

/-- The page loop of `get_top_artists`: set `request_params["page"]`, send
one request, drop the image column (raising on an empty frame), rank and
concatenate.  Returns the final params dict, the trace of pages requested,
and either the accrued frame or the propagated error. -/
def chartLoop (remote : Params → ArtistResponse) :
    List Nat → Params → List Nat → List ChartRow →
    Params × List Nat × Except String (List ChartRow)
  | [], ps, trace, acc => (ps, trace, .ok acc)
  | p :: rest, ps, trace, acc =>
    let ps' := setParam ps "page" (.num p)
    let df := sendLastFmArtistRequest (remote ps')
    match chartRowsE df p with
    | .error e => (ps', trace ++ [p], .error e)
    | .ok rows => chartLoop remote rest ps' (trace ++ [p]) (acc ++ rows)

/-- `get_top_artists`: `n_requests = ceil(n_artists / artists_per_page)`,
`request_params["limit"] = artists_per_page`, then loop over
`range(1, n_requests + 1)`. -/
def getTopArtists (remote : Params → ArtistResponse) (ps : Params)
    (nArtists artistsPerPage : Nat) :
    Params × List Nat × Except String (List ChartRow) :=
  let nRequests := ceilDiv nArtists artistsPerPage
  let ps := setParam ps "limit" (.num artistsPerPage)
  chartLoop remote (List.range' 1 nRequests) ps [] []

/-! ## Listening history: `_get_listening_history`, `get_all_listening_history` -/

/-- One track element of `response["recenttracks"]["track"]`; the
`artist.#text`, `album.#text` and `date.#text` flattened columns are the
ones used downstream. -/
structure TrackJson where
  name : String
  artistText : String
  albumText : String
  dateText : String
  image : String
deriving DecidableEq, Repr

/-- A response of `user.getrecenttracks`: status, the
`recenttracks.@attr.totalPages` metadata field and the nested track list. -/
structure TracksResponse where
  status : Nat
  totalPages : Nat
  tracks : List TrackJson
deriving DecidableEq, Repr

/-- `_get_listening_history`: one request; status 200 parses the nested
list one record per element, otherwise an empty DataFrame. -/
def getListeningHistory (resp : TracksResponse) : List TrackJson :=
  if resp.status = 200 then resp.tracks else []

/-- A track row after `drop(columns=["image"])`. -/
structure TrackRow where
  name : String
  artistText : String
  albumText : String
  dateText : String
deriving DecidableEq, Repr

/-- `tracks.drop(columns=["image"], inplace=True)`: raises `KeyError` on an
empty frame (no `image` column). -/
def trackRowsE (df : List TrackJson) : Except String (List TrackRow) :=
  if df.isEmpty then .error "KeyError: image"
  else .ok (df.map (fun t =>
    { name := t.name, artistText := t.artistText, albumText := t.albumText,
      dateText := t.dateText }))

/-- The page loop of `get_all_listening_history`: per page, set
`request_params["page"]`, request, drop the image column (raising on an
empty frame), persist the page frame (`tracks.to_csv`, modelled as the
accumulated `saved` list) and concatenate. -/
def historyLoop (remote : Params → TracksResponse) :
    List Nat → Params → List Nat → List (Nat × List TrackRow) → List TrackRow →
    Params × List Nat × List (Nat × List TrackRow) × Except String (List TrackRow)
  | [], ps, trace, saved, acc => (ps, trace, saved, .ok acc)
  | p :: rest, ps, trace, saved, acc =>
    let ps' := setParam ps "page" (.num p)
    let df := getListeningHistory (remote ps')
    match trackRowsE df with
    | .error e => (ps', trace ++ [p], saved, .error e)
    | .ok rows =>
      historyLoop remote rest ps' (trace ++ [p]) (saved ++ [(p, rows)])
        (acc ++ rows)

/-- `get_all_listening_history`: set `user` and `limit`, issue the probe
request (whose status is not checked), read
`int(tst.json()["recenttracks"]["@attr"]["totalPages"])`, then loop over
`range(total_pages)`, i.e. pages `0 .. total_pages - 1`. -/
def getAllListeningHistory (remote : Params → TracksResponse) (ps : Params)
    (user : String) (tracksPerPage : Nat) :
    Params × List Nat × List (Nat × List TrackRow) × Except String (List TrackRow) :=
  let ps := setParam ps "user" (.str user)
  let ps := setParam ps "limit" (.num tracksPerPage)
  let totalPages := (remote ps).totalPages
  historyLoop remote (List.range totalPages) ps [] [] []

/-! ## Cache/Checkpoint layer (`last_fm_main.py`)

Each of `geographic_top_artists`, `overall_top_artists` and
`my_listening_history` wraps acquisition in
`try: df = pd.read_csv(path) except FileNotFoundError: df = acquire(); df.to_csv(path)`.
The persisted file for one dataset identity is modelled as `Option α`
(`none` = file not found), reading a present file returns its content
as-is (no freshness or schema check is performed in the source), and the
acquisition run is a thunk returning the produced frame together with the
number of remote calls it issued. -/

/-- The `try read_csv / except FileNotFoundError: acquire; to_csv` pattern.
Returns (frame handed downstream, persisted file afterwards, remote calls
issued). -/
def loadOrAcquire {α : Type} (cache : Option α) (acquire : Unit → α × Nat) :
    α × Option α × Nat :=
  match cache with
  | some df => (df, some df, 0)
  | none =>
    let r := acquire ()
    (r.1, some r.1, r.2)

/-! ## Derived metrics: `plays_per_listener` (`overall_top_artists`)

The counts are coerced with `astype(float)` and divided element-wise by
pandas/numpy, which never raises on division by zero: `x / 0.0` is
`inf` (`-inf` for negative `x`) and `0.0 / 0.0` is `NaN`.  Values are
modelled as exact rationals plus the non-finite IEEE values (signed zeros
omitted — the sign of zero is irrelevant to every claim here). -/

inductive PFloat where
  | finite (q : ℚ)
  | posInf
  | negInf
  | nan
deriving DecidableEq, Repr

def PFloat.isFinite : PFloat → Bool
  | .finite _ => true
  | _ => false

/-- numpy/pandas element-wise division on float64 values. -/
def pfDiv : PFloat → PFloat → PFloat
  | .nan, _ => .nan
  | _, .nan => .nan
  | .finite a, .finite b =>
    if b = 0 then
      if a = 0 then .nan else if 0 < a then .posInf else .negInf
    else .finite (a / b)
  | .finite _, .posInf => .finite 0
  | .finite _, .negInf => .finite 0
  | .posInf, .finite b => if 0 ≤ b then .posInf else .negInf
  | .negInf, .finite b => if 0 ≤ b then .negInf else .posInf
  | .posInf, .posInf => .nan
  | .posInf, .negInf => .nan
  | .negInf, .posInf => .nan
  | .negInf, .negInf => .nan

/-- `top_artists_df["plays_per_listener"] = playcount / listeners`: one
derived value per row, total (no exception path). -/
def playsPerListener (rows : List (PFloat × PFloat)) : List PFloat :=
  rows.map (fun r => pfDiv r.1 r.2)

/-! ## Year × hour pivot normalization (`my_listening_history`) -/

/-- `list(range(2015, 2023, 1))` — the hard-coded complete-year selection. -/
def completeYears : List Nat := List.range' 2015 8

/-- The hard-coded per-year divisor list
`[365, 366, 365, 365, 365, 366, 365, 365]`. -/
def yearDivisors : List Nat := [365, 366, 365, 365, 365, 366, 365, 365]

/-- Gregorian leap-year predicate (for relating the divisor literals to
the days in each selected year). -/
def isLeapYear (y : Nat) : Bool :=
  (y % 4 = 0 && ¬ y % 100 = 0) || y % 400 = 0

/-- `hour_year_counts.loc[list(range(2015, 2023))]` followed by
`(hour_year_counts.T / divisors).T`: select the rows of the eight
hard-coded years and divide the i-th selected row element-wise by the i-th
divisor.  `counts y` is the pivot row (hour counts) for year `y`. -/
def hourYearDaily (counts : Nat → List ℚ) : List (Nat × List ℚ) :=
  (completeYears.zip yearDivisors).map (fun yd =>
    (yd.1, (counts yd.1).map (fun q => q / (yd.2 : ℚ))))

/-! ## Rolling 365-day listening counts (`my_listening_history`) -/

/-- `value_counts`: tally of occurrences per distinct value in
first-encounter order. -/
def tally (xs : List String) : List (String × Nat) :=
  xs.foldl (fun acc x =>
    if acc.any (fun p => p.1 = x) then
      acc.map (fun p => if p.1 = x then (p.1, p.2 + 1) else p)
    else acc ++ [(x, 1)]) []

/-- Insert into a count-descending list, after existing entries of equal
count (stable). -/
def insertByCount (p : String × Nat) : List (String × Nat) → List (String × Nat)
  | [] => [p]
  | q :: qs => if q.2 < p.2 then p :: q :: qs else q :: insertByCount p qs

/-- Stable sort of the tally by count descending. -/
def sortByCountDesc : List (String × Nat) → List (String × Nat)
  | [] => []
  | p :: ps => insertByCount p (sortByCountDesc ps)

/-- `list(tracks_df["artist"].value_counts().head(k).index)`: the `k` most
frequent values. -/
def topKValues (xs : List String) (k : Nat) : List String :=
  ((sortByCountDesc (tally xs)).take k).map (fun p => p.1)

/-- One step of `.rolling("365d", min_periods=1)["name"].count()` at index
timestamp `t` (in days): pandas uses a right-closed offset window, i.e.
the rows with index in the half-open interval `(t - 365, t]`. -/
def windowEvents (events : List ℚ) (t : ℚ) : List ℚ :=
  events.filter (fun e => t - 365 < e ∧ e ≤ t)

def rollingCount365 (events : List ℚ) (t : ℚ) : Nat :=
  (windowEvents events t).length

/-- The rolling-listening computation: restrict the timestamped plays
(`(datetime, artist)` pairs) to the top-6 artists by overall frequency,
group by artist, and emit for each play the trailing-365-day count of that
artist's plays at its timestamp. -/
def rollingListening (tracks : List (ℚ × String)) : List (String × ℚ × Nat) :=
  let top6 := topKValues (tracks.map (fun tr => tr.2)) 6
  let kept := tracks.filter (fun tr => top6.contains tr.2)
  top6.flatMap (fun a =>
    let evs := (kept.filter (fun tr => tr.2 = a)).map (fun tr => tr.1)
    evs.map (fun t => (a, t, rollingCount365 evs t)))

/-! ## Helper lemmas about the loops -/

theorem sendRequest_of_status200 (resp : ArtistResponse) (h : resp.status = 200) :
    sendLastFmArtistRequest resp = resp.artists := by
  unfold sendLastFmArtistRequest
  rw [if_pos h]

theorem sendRequest_of_fail (resp : ArtistResponse) (h : resp.status ≠ 200) :
    sendLastFmArtistRequest resp = [] := by
  unfold sendLastFmArtistRequest
  rw [if_neg h]

theorem map_country_rankCountryRows (df : List ArtistJson) (c : String) :
    (rankCountryRows df c).map (fun r => r.country) =
      List.replicate df.length c := by
  unfold rankCountryRows
  rw [List.map_map]
  have h : ((fun r : CountryRow => r.country) ∘ fun ia : Nat × ArtistJson =>
      ({ name := ia.2.name, mbid := ia.2.mbid, listeners := ia.2.listeners,
         playcount := ia.2.playcount, country_rank := ia.1 + 1,
         country := c } : CountryRow)) = fun _ => c := rfl
  rw [h, List.map_const']
  simp [List.length_zip, List.length_range]

theorem rankCountryRows_nil (c : String) : rankCountryRows [] c = [] := rfl

/-- Whether or not a non-empty guard fires, appending the ranked rows is the
same as appending (the empty frame ranks to the empty row list). -/
theorem geo_guard_append (df : List ArtistJson) (c : String)
    (acc : List CountryRow) :
    (if 0 < df.length then acc ++ rankCountryRows df c else acc) =
      acc ++ rankCountryRows df c := by
  cases df with
  | nil => simp [rankCountryRows_nil]
  | cons x xs => simp

theorem getParam_foldl_set_concat {α : Type} (k : String) (f : α → PVal)
    (l : List α) (a : α) (ps : Params) :
    getParam ((l ++ [a]).foldl (fun q c => setParam q k (f c)) ps) k =
      some (f a) := by
  rw [List.foldl_append, List.foldl_cons]
  exact getParam_setParam_self _ _ _

theorem getParam_foldl_set_ne {α : Type} (k k' : String) (hne : k ≠ k')
    (f : α → PVal) (l : List α) (ps : Params) :
    getParam (l.foldl (fun q c => setParam q k (f c)) ps) k' =
      getParam ps k' := by
  induction l generalizing ps with
  | nil => rfl
  | cons x xs ih => rw [List.foldl_cons, ih, getParam_setParam_ne _ _ _ _ hne]

/-- The final params dict of the country loop is the fold of the per-key
`request_params["country"] = country` writes. -/
theorem geoLoop_params (remote : Params → ArtistResponse)
    (changes : List (String × String)) (cs : List String) :
    ∀ (ps : Params) (trace : List String) (acc : List CountryRow),
      (geoLoop remote changes cs ps trace acc).1 =
        cs.foldl (fun q c =>
          setParam q "country" (.str (applyNameChange changes c))) ps := by
  induction cs with
  | nil => intro ps trace acc; rfl
  | cons c rest ih =>
    intro ps trace acc
    rw [List.foldl_cons]
    exact ih _ _ _

/-- The country loop requests every key (in order) and never aborts: the
trace always extends to the whole key list. -/
theorem geoLoop_trace (remote : Params → ArtistResponse)
    (changes : List (String × String)) (cs : List String) :
    ∀ (ps : Params) (trace : List String) (acc : List CountryRow),
      (geoLoop remote changes cs ps trace acc).2.1 =
        trace ++ cs.map (applyNameChange changes) := by
  induction cs with
  | nil => intro ps trace acc; simp [geoLoop]
  | cons c rest ih =>
    intro ps trace acc
    show (geoLoop remote changes rest _ (trace ++ [applyNameChange changes c]) _).2.1 = _
    rw [ih]
    simp

/-- The chart page loop, when every response is a success with a non-empty
record list, visits every page, keeps the accrued frame in `.ok`, and
leaves the params dict as the fold of the `request_params["page"]` writes. -/
theorem chartLoop_ok (remote : Params → ArtistResponse)
    (hs : ∀ ps, (remote ps).status = 200 ∧ (remote ps).artists ≠ [])
    (pages : List Nat) :
    ∀ (ps : Params) (trace : List Nat) (acc : List ChartRow),
      (chartLoop remote pages ps trace acc).1 =
          pages.foldl (fun q p => setParam q "page" (.num p)) ps ∧
        (chartLoop remote pages ps trace acc).2.1 = trace ++ pages ∧
        ∃ rows, (chartLoop remote pages ps trace acc).2.2 = .ok rows := by
  induction pages with
  | nil =>
    intro ps trace acc
    exact ⟨rfl, by simp [chartLoop], ⟨acc, rfl⟩⟩
  | cons p rest ih =>
    intro ps trace acc
    have h200 := (hs (setParam ps "page" (.num p))).1
    have hne := (hs (setParam ps "page" (.num p))).2
    have hdf := sendRequest_of_status200 _ h200
    have hrows : ∃ rs, chartRowsE
        (sendLastFmArtistRequest (remote (setParam ps "page" (.num p)))) p =
          .ok rs := by
      rw [hdf]
      unfold chartRowsE
      rw [if_neg (by simpa [List.isEmpty_iff] using hne)]
      exact ⟨_, rfl⟩
    obtain ⟨rs, hrs⟩ := hrows
    have key : chartLoop remote (p :: rest) ps trace acc =
        chartLoop remote rest (setParam ps "page" (.num p)) (trace ++ [p])
          (acc ++ rs) := by
      simp only [chartLoop]
      rw [hrs]
    rw [key]
    refine ⟨?_, ?_, ?_⟩
    · rw [(ih _ _ _).1, List.foldl_cons]
    · rw [(ih _ _ _).2.1]
      simp
    · exact (ih _ _ _).2.2

/-- Same for the listening-history page loop. -/
theorem historyLoop_ok (remote : Params → TracksResponse)
    (hs : ∀ ps, (remote ps).status = 200 ∧ (remote ps).tracks ≠ [])
    (pages : List Nat) :
    ∀ (ps : Params) (trace : List Nat) (saved : List (Nat × List TrackRow))
      (acc : List TrackRow),
      (historyLoop remote pages ps trace saved acc).1 =
          pages.foldl (fun q p => setParam q "page" (.num p)) ps ∧
        (historyLoop remote pages ps trace saved acc).2.1 = trace ++ pages ∧
        ∃ rows, (historyLoop remote pages ps trace saved acc).2.2.2 = .ok rows := by
  induction pages with
  | nil =>
    intro ps trace saved acc
    exact ⟨rfl, by simp [historyLoop], ⟨acc, rfl⟩⟩
  | cons p rest ih =>
    intro ps trace saved acc
    have h200 := (hs (setParam ps "page" (.num p))).1
    have hne := (hs (setParam ps "page" (.num p))).2
    have hdf : getListeningHistory (remote (setParam ps "page" (.num p))) =
        (remote (setParam ps "page" (.num p))).tracks := by
      unfold getListeningHistory
      rw [if_pos h200]
    have hrows : ∃ rs, trackRowsE
        (getListeningHistory (remote (setParam ps "page" (.num p)))) =
          .ok rs := by
      rw [hdf]
      unfold trackRowsE
      rw [if_neg (by simpa [List.isEmpty_iff] using hne)]
      exact ⟨_, rfl⟩
    obtain ⟨rs, hrs⟩ := hrows
    have key : historyLoop remote (p :: rest) ps trace saved acc =
        historyLoop remote rest (setParam ps "page" (.num p)) (trace ++ [p])
          (saved ++ [(p, rs)]) (acc ++ rs) := by
      simp only [historyLoop]
      rw [hrs]
    rw [key]
    refine ⟨?_, ?_, ?_⟩
    · rw [(ih _ _ _ _).1, List.foldl_cons]
    · rw [(ih _ _ _ _).2.1]
      simp
    · exact (ih _ _ _ _).2.2

/-! ## Concrete fixtures -/

def cexArtist : ArtistJson :=
  { name := "X", mbid := "m", listeners := "10", playcount := "20", image := "i" }

def cexTrack : TrackJson :=
  { name := "t", artistText := "a", albumText := "b",
    dateText := "01 Jan 2020, 10:00", image := "i" }

/-- A chart remote whose page 2 fails (non-success status); every other
page succeeds with one artist. -/
def cexRemoteChart : Params → ArtistResponse := fun ps =>
  if getParam ps "page" = some (.num 2) then
    { status := 500, artists := [cexArtist] }
  else
    { status := 200, artists := [cexArtist] }

/-- A listening-history remote reporting two total pages whose page 0
fails; page 1 would succeed. -/
def cexRemoteHistory : Params → TracksResponse := fun ps =>
  if getParam ps "page" = some (.num 0) then
    { status := 500, totalPages := 2, tracks := [cexTrack] }
  else
    { status := 200, totalPages := 2, tracks := [cexTrack] }

/-- A geographic remote that fails for country key "B" and returns one
artist for every other key. -/
def cexRemoteGeo : Params → ArtistResponse := fun ps =>
  if getParam ps "country" = some (.str "B") then
    { status := 500, artists := [cexArtist] }
  else
    { status := 200, artists := [cexArtist] }

/-- C1 counterexample: The claim asserts the failure-skip behaviour
for all three pagination modes, but in discovered-count chart mode and in
listening-history mode a failed page yields an empty frame on which the
unconditional `drop(columns=["image"])` raises `KeyError`, aborting the
run: with pages 1..3 and page 2 failing, the chart run stops after
requesting pages [1, 2] (page 3 is never acquired) and propagates the
error; with two history pages and page 0 failing, the history run stops
after page [0] with the error. -/
theorem c1_pagination_failure_counterexample :
    (getTopArtists cexRemoteChart [] 150 50).2.1 = [1, 2] ∧
    (getTopArtists cexRemoteChart [] 150 50).2.2 =
      Except.error "KeyError: image" ∧
    (getAllListeningHistory cexRemoteHistory [] "u" 200).2.1 = [0] ∧
    (getAllListeningHistory cexRemoteHistory [] "u" 200).2.2.2 =
      Except.error "KeyError: image" :=
  ⟨rfl, rfl, rfl, rfl⟩

/-- C1 amended: In finite-key geographic mode the claim holds: a
remote failure for one key yields an empty Result Frame that contributes
zero rows and does not abort the loop; every key is still requested in
order, and for a key set `[a, b, c]` where `b`'s call fails the output
consists of `a`'s block followed by `c`'s block (so each key contributes
at most one block of rows, and a frame-per-key run yields rows only for
`a` and `c`, in that order). -/
theorem c1_geo_failure_skipped (remote : Params → ArtistResponse)
    (ps : Params) (a b c : String)
    (hA : (remote (setParam ps "country" (.str a))).status = 200)
    (hB : (remote (setParam (setParam ps "country" (.str a)) "country"
      (.str b))).status ≠ 200)
    (hC : (remote (setParam (setParam (setParam ps "country" (.str a))
      "country" (.str b)) "country" (.str c))).status = 200) :
    (getCountriesTopArtists remote [a, b, c] [] ps).2.1 = [a, b, c] ∧
    (getCountriesTopArtists remote [a, b, c] [] ps).2.2 =
      rankCountryRows (remote (setParam ps "country" (.str a))).artists a ++
      rankCountryRows (remote (setParam (setParam (setParam ps "country"
        (.str a)) "country" (.str b)) "country" (.str c))).artists c ∧
    (getCountriesTopArtists remote [a, b, c] [] ps).2.2.map
        (fun r => r.country) =
      List.replicate
        (remote (setParam ps "country" (.str a))).artists.length a ++
      List.replicate
        (remote (setParam (setParam (setParam ps "country" (.str a))
          "country" (.str b)) "country" (.str c))).artists.length c := by
  have hch : ∀ x : String, applyNameChange [] x = x := fun _ => rfl
  have eA := sendRequest_of_status200 _ hA
  have eB := sendRequest_of_fail _ hB
  have eC := sendRequest_of_status200 _ hC
  have run : getCountriesTopArtists remote [a, b, c] [] ps =
      geoLoop remote [] [] (setParam (setParam (setParam ps "country"
        (.str a)) "country" (.str b)) "country" (.str c))
        ([] ++ [a] ++ [b] ++ [c])
        (([] ++ rankCountryRows
            (remote (setParam ps "country" (.str a))).artists a) ++
          rankCountryRows (remote (setParam (setParam (setParam ps "country"
            (.str a)) "country" (.str b)) "country" (.str c))).artists c) := by
    unfold getCountriesTopArtists
    simp only [geoLoop, hch, eA, eB, eC, geo_guard_append,
      List.length_nil, Nat.lt_irrefl, if_false]
  rw [run]
  refine ⟨by simp [geoLoop], by simp [geoLoop], ?_⟩
  simp only [geoLoop, List.nil_append, List.map_append,
    map_country_rankCountryRows]

/-- Witness for `c1_geo_failure_skipped` at the concrete geographic remote
`cexRemoteGeo` with keys ["A", "B", "C"] (key "B" fails). -/
theorem c1_geo_failure_skipped_witness :
    (getCountriesTopArtists cexRemoteGeo ["A", "B", "C"] [] []).2.1 =
        ["A", "B", "C"] ∧
      (getCountriesTopArtists cexRemoteGeo ["A", "B", "C"] [] []).2.2.map
          (fun r => r.country) =
        List.replicate 1 "A" ++ List.replicate 1 "C" := by
  have h := c1_geo_failure_skipped cexRemoteGeo [] "A" "B" "C"
    (by decide) (by decide) (by decide)
  exact ⟨h.1, h.2.2⟩

/-! ## C2: rank assignment -/

/-- A chart remote that always succeeds with 50 records per page. -/
def cexRemoteChartOk : Params → ArtistResponse := fun _ =>
  { status := 200, artists := List.replicate 50 cexArtist }

/-- A geographic remote that always succeeds with 3 records. -/
def cexRemoteGeo3 : Params → ArtistResponse := fun _ =>
  { status := 200, artists := [cexArtist, cexArtist, cexArtist] }

/-- Project the rank column out of a chart run result. -/
def chartRanks (r : Except String (List ChartRow)) : List Nat :=
  match r with
  | .ok rows => rows.map (fun row => row.rank)
  | .error _ => []

/-- C2, the code evaluated at the failing input: Geographic mode: a single
key returning 3 records gets `country_rank` exactly [1, 2, 3], as the
claim states.  Chart mode: the source ranks with the literal offset
`200 * (page - 1)` instead of `artists_per_page * (page - 1)`; with
`artists_per_page = 50` and every page full, the first record of page 3
(0-based overall index 100) receives rank 401, whereas the claim's formula
`(0 + 1) + 50 * (3 - 1)` gives 101. -/
theorem c2_rank_assignment_evaluation :
    ((getCountriesTopArtists cexRemoteGeo3 ["A"] [] []).2.2.map
        (fun r => r.country_rank)) = [1, 2, 3] ∧
    (chartRanks (getTopArtists cexRemoteChartOk [] 150 50).2.2).get? 100 =
      some 401 ∧
    (0 + 1) + 50 * (3 - 1) = 101 :=
  ⟨rfl, rfl, rfl⟩

/-! ## C3: number of page requests -/

/-- `ceilDiv n p` is the exact ceiling of `n / p`: the least `m` with
`n ≤ p * m`. -/
theorem ceilDiv_is_ceiling (n p : Nat) (hp : 0 < p) :
    n ≤ p * ceilDiv n p ∧ ∀ m, n ≤ p * m → ceilDiv n p ≤ m := by
  constructor
  · unfold ceilDiv
    have h1 := Nat.div_add_mod (n + p - 1) p
    have h2 : (n + p - 1) % p < p := Nat.mod_lt _ hp
    generalize hr : (n + p - 1) % p = r at h1 h2
    generalize p * ((n + p - 1) / p) = A at h1 ⊢
    omega
  · intro m hm
    unfold ceilDiv
    rw [← Nat.lt_succ_iff, Nat.succ_eq_add_one, Nat.div_lt_iff_lt_mul hp]
    have h3 : (m + 1) * p = p * m + p := by ring
    rw [h3]
    generalize p * m = B at hm ⊢
    omega

/-- C3: In discovered-count mode a full run (every page succeeding)
issues exactly `ceil(total_units / units_per_page)` page requests, in
increasing page order: the chart run requests exactly the pages
`1 .. ceilDiv n_artists artists_per_page` (a count that is the true
ceiling of the division), and the listening-history run learns
`totalPages` from the probe request's metadata field and requests exactly
the pages `0 .. totalPages - 1`. -/
theorem c3_request_count
    (remoteC : Params → ArtistResponse) (remoteH : Params → TracksResponse)
    (psC psH : Params) (nArtists perPage tracksPerPage : Nat) (user : String)
    (hp : 0 < perPage)
    (hC : ∀ ps, (remoteC ps).status = 200 ∧ (remoteC ps).artists ≠ [])
    (hH : ∀ ps, (remoteH ps).status = 200 ∧ (remoteH ps).tracks ≠ []) :
    (getTopArtists remoteC psC nArtists perPage).2.1 =
        List.range' 1 (ceilDiv nArtists perPage) ∧
      (getTopArtists remoteC psC nArtists perPage).2.1.length =
        ceilDiv nArtists perPage ∧
      List.Pairwise (fun x y => x < y)
        (getTopArtists remoteC psC nArtists perPage).2.1 ∧
      (nArtists ≤ perPage * ceilDiv nArtists perPage ∧
        ∀ m, nArtists ≤ perPage * m → ceilDiv nArtists perPage ≤ m) ∧
      (getAllListeningHistory remoteH psH user tracksPerPage).2.1 =
        List.range ((remoteH (setParam (setParam psH "user" (.str user))
          "limit" (.num tracksPerPage))).totalPages) ∧
      (getAllListeningHistory remoteH psH user tracksPerPage).2.1.length =
        (remoteH (setParam (setParam psH "user" (.str user))
          "limit" (.num tracksPerPage))).totalPages ∧
      List.Pairwise (fun x y => x < y)
        (getAllListeningHistory remoteH psH user tracksPerPage).2.1 := by
  have hchart := chartLoop_ok remoteC hC
    (List.range' 1 (ceilDiv nArtists perPage))
    (setParam psC "limit" (.num perPage)) [] []
  have htraceC : (getTopArtists remoteC psC nArtists perPage).2.1 =
      List.range' 1 (ceilDiv nArtists perPage) := by
    simp only [getTopArtists]
    rw [hchart.2.1]
    simp
  have hhist := historyLoop_ok remoteH hH
    (List.range ((remoteH (setParam (setParam psH "user" (.str user))
      "limit" (.num tracksPerPage))).totalPages))
    (setParam (setParam psH "user" (.str user)) "limit" (.num tracksPerPage))
    [] [] []
  have htraceH : (getAllListeningHistory remoteH psH user tracksPerPage).2.1 =
      List.range ((remoteH (setParam (setParam psH "user" (.str user))
        "limit" (.num tracksPerPage))).totalPages) := by
    simp only [getAllListeningHistory]
    rw [hhist.2.1]
    simp
  refine ⟨htraceC, ?_, ?_, ceilDiv_is_ceiling _ _ hp, htraceH, ?_, ?_⟩
  · rw [htraceC, List.length_range']
  · rw [htraceC]
    exact List.pairwise_lt_range' 1 _
  · rw [htraceH, List.length_range]
  · rw [htraceH]
    exact List.pairwise_lt_range _

/-- Witness for `c3_request_count`: with 5 artists at 2 per page the chart
run requests pages [1, 2, 3] (= ceil(5/2) requests); with a probe
reporting 2 total pages the history run requests pages [0, 1]. -/
theorem c3_request_count_witness :
    (getTopArtists (fun _ => { status := 200, artists := [cexArtist] })
        [] 5 2).2.1 = [1, 2, 3] ∧
      (getAllListeningHistory
        (fun _ => { status := 200, totalPages := 2, tracks := [cexTrack] })
        [] "u" 200).2.1 = [0, 1] := by
  have h := c3_request_count
    (fun _ => { status := 200, artists := [cexArtist] })
    (fun _ => { status := 200, totalPages := 2, tracks := [cexTrack] })
    [] [] 5 2 200 "u" (by decide)
    (fun _ => ⟨rfl, List.cons_ne_nil _ _⟩)
    (fun _ => ⟨rfl, List.cons_ne_nil _ _⟩)
  exact ⟨h.1.trans rfl, h.2.2.2.2.1.trans rfl⟩

/-! ## C4: cache idempotence -/

/-- C4: If the persisted file for a dataset identity exists, the run
issues zero remote calls and returns the persisted data as-is (there is no
freshness or schema check to fail); consequently running the pipeline
twice against the same cache identity issues zero remote calls on the
second run, returns the same aggregate data as the first, and leaves the
persisted dataset unchanged. -/
theorem c4_cache_idempotence {α : Type} (d : α) (acquire : Unit → α × Nat) :
    loadOrAcquire (some d) acquire = (d, some d, 0) ∧
      (loadOrAcquire (loadOrAcquire (none : Option α) acquire).2.1
          acquire).2.2 = 0 ∧
      (loadOrAcquire (loadOrAcquire (none : Option α) acquire).2.1
          acquire).1 = (loadOrAcquire (none : Option α) acquire).1 ∧
      (loadOrAcquire (loadOrAcquire (none : Option α) acquire).2.1
          acquire).2.1 = (loadOrAcquire (none : Option α) acquire).2.1 :=
  ⟨rfl, rfl, rfl, rfl⟩

/-! ## C5: the Query Executor's status dichotomy -/

/-- C5: Every remote call made by the Query Executor issues exactly
one request; on a success status the named outer field's nested list is
parsed into one record per element; on any non-success status the
Executor returns an empty Result Frame (zero rows) — as a total function,
with no retry and no exception.  Both executors
(`_send_last_fm_artist_request` and `_get_listening_history`) behave this
way. -/
theorem c5_executor_status_dichotomy (remote : Params → ArtistResponse)
    (ps : Params) :
    (sendLastFmArtistRequestT remote ps).1.length = 1 ∧
      ((remote ps).status = 200 →
        (sendLastFmArtistRequestT remote ps).2 = (remote ps).artists ∧
        (sendLastFmArtistRequestT remote ps).2.length =
          (remote ps).artists.length) ∧
      ((remote ps).status ≠ 200 →
        (sendLastFmArtistRequestT remote ps).2 = []) ∧
      (∀ resp : TracksResponse, resp.status = 200 →
        getListeningHistory resp = resp.tracks) ∧
      (∀ resp : TracksResponse, resp.status ≠ 200 →
        getListeningHistory resp = []) := by
  refine ⟨rfl, ?_, ?_, ?_, ?_⟩
  · intro h
    have e : (sendLastFmArtistRequestT remote ps).2 = (remote ps).artists :=
      sendRequest_of_status200 _ h
    exact ⟨e, by rw [e]⟩
  · intro h
    exact sendRequest_of_fail _ h
  · intro resp h
    unfold getListeningHistory
    rw [if_pos h]
  · intro resp h
    unfold getListeningHistory
    rw [if_neg h]

/-- Witness for `c5_executor_status_dichotomy`: a 404 response yields an
empty frame, a 200 response is parsed one record per element. -/
theorem c5_executor_status_dichotomy_witness :
    (sendLastFmArtistRequestT
        (fun _ => { status := 404, artists := [cexArtist] }) []).2 = [] ∧
      (sendLastFmArtistRequestT
        (fun _ => { status := 200, artists := [cexArtist] }) []).2 =
        [cexArtist] ∧
      getListeningHistory (TracksResponse.mk 503 1 [cexTrack]) = [] := by
  refine ⟨?_, ?_, ?_⟩
  · exact (c5_executor_status_dichotomy
      (fun _ => { status := 404, artists := [cexArtist] }) []).2.2.1
      (by decide)
  · exact ((c5_executor_status_dichotomy
      (fun _ => { status := 200, artists := [cexArtist] }) []).2.1 rfl).1
  · exact (c5_executor_status_dichotomy
      (fun _ => { status := 200, artists := [] }) []).2.2.2.2
      (TracksResponse.mk 503 1 [cexTrack]) (by decide)

/-! ## C6: name reconciliation -/

/-- C6: Name reconciliation is a pure forward lookup with pass-through
default: a name whose key is found in the Name Map is replaced by the
mapped value, a name absent from the map passes through unchanged, no name
is ever dropped (the mapped list has the same length), and the map
`{"A": "B"}` applied to `["A", "C"]` yields `["B", "C"]`. -/
theorem c6_name_reconciliation (mapping : List (String × String)) (n : String) :
    (∀ e, mapping.find? (fun kv => kv.1 = n) = some e →
        applyNameChange mapping n = e.2) ∧
      (mapping.find? (fun kv => kv.1 = n) = none →
        applyNameChange mapping n = n) ∧
      (∀ names, (mapCountryNames mapping names).length = names.length) ∧
      mapCountryNames [("A", "B")] ["A", "C"] = ["B", "C"] := by
  refine ⟨?_, ?_, ?_, rfl⟩
  · intro e he
    unfold applyNameChange
    rw [he]
  · intro he
    unfold applyNameChange
    rw [he]
  · intro names
    unfold mapCountryNames
    rw [List.length_map]

/-- Witness for `c6_name_reconciliation` on the map `{"A": "B"}`: the
present key "A" is translated to "B" and the absent key "C" passes
through. -/
theorem c6_name_reconciliation_witness :
    applyNameChange [("A", "B")] "A" = "B" ∧
      applyNameChange [("A", "B")] "C" = "C" := by
  constructor
  · exact (c6_name_reconciliation [("A", "B")] "A").1 ("A", "B") (by decide)
  · exact (c6_name_reconciliation [("A", "B")] "C").2.1 (by decide)

/-! ## C7: the derived plays-per-listener column -/

/-- C7: The derived column `playcount / listeners` is a total
function — every row yields a value and no exception path exists; at
`playcount = 100, listeners = 0` the result is `inf`, a non-finite value,
and division of any finite playcount by a zero listener count is
non-finite (`inf`, `-inf` or `NaN`), never an error. -/
theorem c7_plays_per_listener_total :
    pfDiv (.finite 100) (.finite 0) = .posInf ∧
      (pfDiv (.finite 100) (.finite 0)).isFinite = false ∧
      (∀ rows, (playsPerListener rows).length = rows.length) ∧
      (∀ a : ℚ, (pfDiv (.finite a) (.finite 0)).isFinite = false) := by
  have h100 : pfDiv (.finite 100) (.finite 0) = .posInf := by
    unfold pfDiv
    norm_num
  refine ⟨h100, by rw [h100]; rfl, ?_, ?_⟩
  · intro rows
    unfold playsPerListener
    rw [List.length_map]
  · intro a
    unfold pfDiv
    rcases lt_trichotomy a 0 with h | h | h
    · simp [h, not_lt.mpr (le_of_lt h), ne_of_lt h, PFloat.isFinite]
    · simp [h, PFloat.isFinite]
    · simp [h, ne_of_gt h, PFloat.isFinite]

/-! ## C8: the year × hour pivot restriction and normalization -/

/-- C8: The pivot table is restricted to exactly the inclusive year
range 2015..2022; the hard-coded divisor list equals the leap-year-aware
days-in-year of those years in row order (366 exactly for the leap years
2016 and 2020, 365 otherwise), and each selected year's row of counts is
divided element-wise by that year's number of days. -/
theorem c8_pivot_year_normalization :
    completeYears = [2015, 2016, 2017, 2018, 2019, 2020, 2021, 2022] ∧
      yearDivisors = completeYears.map
        (fun y => if isLeapYear y then 366 else 365) ∧
      completeYears.filter (fun y => isLeapYear y) = [2016, 2020] ∧
      ∀ counts, hourYearDaily counts = completeYears.map (fun y =>
        (y, (counts y).map (fun q =>
          q / (((if isLeapYear y then 366 else 365) : Nat) : ℚ)))) := by
  refine ⟨by decide, by decide, by decide, ?_⟩
  intro counts
  rfl

/-! ## C9: the rolling 365-day window -/

/-- C9: The rolling computation emits counts only for artists among
the top-6 most frequent; at each timestamp the window is the trailing 365
days (right-closed), so an event dated 365 or more days earlier is
excluded: for one entity with events on day 1 and day 400, the rolling
count at day 400 is 1, excluding day 1's event. -/
theorem c9_rolling_window_excludes_old (events : List ℚ) (t e : ℚ) :
    rollingCount365 [1, 400] 400 = 1 ∧
      (e ≤ t - 365 → e ∉ windowEvents events t) ∧
      (∀ tracks a ts n, (a, ts, n) ∈ rollingListening tracks →
        a ∈ topKValues (tracks.map (fun tr => tr.2)) 6) := by
  refine ⟨?_, ?_, ?_⟩
  · have hw : windowEvents [1, 400] 400 = [400] := by
      unfold windowEvents
      rw [List.filter_cons, List.filter_cons, List.filter_nil]
      norm_num
    unfold rollingCount365
    rw [hw]
    rfl
  · intro he hmem
    rw [windowEvents, List.mem_filter] at hmem
    have h2 := of_decide_eq_true hmem.2
    exact absurd h2.1 (not_lt.mpr he)
  · intro tracks a ts n hmem
    simp only [rollingListening, List.mem_flatMap, List.mem_map] at hmem
    obtain ⟨a', ha', t0, _, heq⟩ := hmem
    cases heq
    exact ha'

/-- Witness for `c9_rolling_window_excludes_old`: day 1's event is outside
the 365-day window at day 400. -/
theorem c9_rolling_window_excludes_old_witness :
    (1 : ℚ) ∉ windowEvents [1, 400] 400 ∧
      rollingCount365 [1, 400] 400 = 1 := by
  have h := c9_rolling_window_excludes_old [1, 400] 400 1
  exact ⟨h.2.1 (by norm_num), h.1⟩

/-! ## C10: in-place mutation of the request-params dict -/

/-- C10: Every acquisition function writes into the caller-supplied
request-parameter dict, which therefore retains the last-written values
after the run instead of being unchanged: the country loop leaves
`params["country"]` at the (name-corrected) last key — and the dict is no
longer the caller's original when the key was previously absent; the
chart run leaves `params["limit"] = artists_per_page` and
`params["page"]` at the last page `ceil(n_artists / artists_per_page)`;
the history run leaves `params["user"]`, `params["limit"] =
tracks_per_page` and `params["page"]` at the last page
`total_pages - 1`. -/
theorem c10_request_params_mutated
    (remoteG remoteC : Params → ArtistResponse)
    (remoteH : Params → TracksResponse)
    (psG psC psH : Params) (l : List String) (a : String)
    (changes : List (String × String))
    (nArtists perPage tracksPerPage : Nat) (user : String)
    (hC : ∀ ps, (remoteC ps).status = 200 ∧ (remoteC ps).artists ≠ [])
    (hH : ∀ ps, (remoteH ps).status = 200 ∧ (remoteH ps).tracks ≠ [])
    (hn : 0 < ceilDiv nArtists perPage)
    (hT : 0 < (remoteH (setParam (setParam psH "user" (.str user))
      "limit" (.num tracksPerPage))).totalPages) :
    getParam (getCountriesTopArtists remoteG (l ++ [a]) changes psG).1
        "country" = some (.str (applyNameChange changes a)) ∧
      (getParam psG "country" = none →
        (getCountriesTopArtists remoteG (l ++ [a]) changes psG).1 ≠ psG) ∧
      getParam (getTopArtists remoteC psC nArtists perPage).1 "limit" =
        some (.num perPage) ∧
      getParam (getTopArtists remoteC psC nArtists perPage).1 "page" =
        some (.num (ceilDiv nArtists perPage)) ∧
      getParam (getAllListeningHistory remoteH psH user tracksPerPage).1
        "user" = some (.str user) ∧
      getParam (getAllListeningHistory remoteH psH user tracksPerPage).1
        "limit" = some (.num tracksPerPage) ∧
      getParam (getAllListeningHistory remoteH psH user tracksPerPage).1
        "page" = some (.num ((remoteH (setParam (setParam psH "user"
          (.str user)) "limit" (.num tracksPerPage))).totalPages - 1)) := by
  have hgeo : getParam (getCountriesTopArtists remoteG (l ++ [a]) changes
      psG).1 "country" = some (.str (applyNameChange changes a)) := by
    unfold getCountriesTopArtists
    rw [geoLoop_params]
    exact getParam_foldl_set_concat "country"
      (fun c => .str (applyNameChange changes c)) l a psG
  have hchart := chartLoop_ok remoteC hC
    (List.range' 1 (ceilDiv nArtists perPage))
    (setParam psC "limit" (.num perPage)) [] []
  have hchartPs : (getTopArtists remoteC psC nArtists perPage).1 =
      (List.range' 1 (ceilDiv nArtists perPage)).foldl
        (fun q p => setParam q "page" (.num p))
        (setParam psC "limit" (.num perPage)) := by
    simp only [getTopArtists]
    exact hchart.1
  obtain ⟨mm, hmm⟩ : ∃ mm, ceilDiv nArtists perPage = mm + 1 :=
    ⟨ceilDiv nArtists perPage - 1, by omega⟩
  have hrange : List.range' 1 (ceilDiv nArtists perPage) =
      List.range' 1 mm ++ [1 + mm] := by
    rw [hmm, List.range'_concat]
    simp
  have hhist := historyLoop_ok remoteH hH
    (List.range ((remoteH (setParam (setParam psH "user" (.str user))
      "limit" (.num tracksPerPage))).totalPages))
    (setParam (setParam psH "user" (.str user)) "limit" (.num tracksPerPage))
    [] [] []
  have hhistPs : (getAllListeningHistory remoteH psH user tracksPerPage).1 =
      (List.range ((remoteH (setParam (setParam psH "user" (.str user))
          "limit" (.num tracksPerPage))).totalPages)).foldl
        (fun q p => setParam q "page" (.num p))
        (setParam (setParam psH "user" (.str user)) "limit"
          (.num tracksPerPage)) := by
    simp only [getAllListeningHistory]
    exact hhist.1
  obtain ⟨tt, htt⟩ : ∃ tt, (remoteH (setParam (setParam psH "user"
      (.str user)) "limit" (.num tracksPerPage))).totalPages = tt + 1 :=
    ⟨(remoteH (setParam (setParam psH "user" (.str user)) "limit"
      (.num tracksPerPage))).totalPages - 1, by omega⟩
  have hrangeH : List.range ((remoteH (setParam (setParam psH "user"
      (.str user)) "limit" (.num tracksPerPage))).totalPages) =
      List.range tt ++ [tt] := by
    rw [htt, List.range_succ]
  refine ⟨hgeo, ?_, ?_, ?_, ?_, ?_, ?_⟩
  · intro habs hps
    rw [hps, habs] at hgeo
    exact Option.noConfusion hgeo
  · rw [hchartPs]
    rw [getParam_foldl_set_ne "page" "limit" (by decide)
      (fun p => PVal.num p)]
    exact getParam_setParam_self _ _ _
  · rw [hchartPs, hrange, hmm]
    have h := getParam_foldl_set_concat "page" (fun p => PVal.num p)
      (List.range' 1 mm) (1 + mm) (setParam psC "limit" (.num perPage))
    rw [h]
    have : 1 + mm = mm + 1 := by omega
    rw [this]
  · rw [hhistPs]
    rw [getParam_foldl_set_ne "page" "user" (by decide)
      (fun p => PVal.num p)]
    rw [getParam_setParam_ne _ _ _ _ (by decide)]
    exact getParam_setParam_self _ _ _
  · rw [hhistPs]
    rw [getParam_foldl_set_ne "page" "limit" (by decide)
      (fun p => PVal.num p)]
    exact getParam_setParam_self _ _ _
  · rw [hhistPs, hrangeH, htt]
    have h := getParam_foldl_set_concat "page" (fun p => PVal.num p)
      (List.range tt) tt
      (setParam (setParam psH "user" (.str user)) "limit"
        (.num tracksPerPage))
    rw [h]
    have : tt + 1 - 1 = tt := by omega
    rw [this]

/-- Witness for `c10_request_params_mutated` at concrete remotes and
inputs: after the runs the dicts hold the last-written "country", "limit",
"page" and "user" values. -/
theorem c10_request_params_mutated_witness :
    getParam (getCountriesTopArtists cexRemoteGeo3 (["A"] ++ ["B"]) []
        []).1 "country" = some (.str "B") ∧
      getParam (getTopArtists cexRemoteChartOk [] 5 2).1 "limit" =
        some (.num 2) ∧
      getParam (getTopArtists cexRemoteChartOk [] 5 2).1 "page" =
        some (.num 3) ∧
      getParam (getAllListeningHistory
        (fun _ => { status := 200, totalPages := 2, tracks := [cexTrack] })
        [] "u" 200).1 "page" = some (.num 1) := by
  have h := c10_request_params_mutated cexRemoteGeo3 cexRemoteChartOk
    (fun _ => { status := 200, totalPages := 2, tracks := [cexTrack] })
    [] [] [] ["A"] "B" [] 5 2 200 "u"
    (fun _ => ⟨rfl, List.cons_ne_nil _ _⟩)
    (fun _ => ⟨rfl, List.cons_ne_nil _ _⟩)
    (by decide) (by decide)
  exact ⟨h.1, h.2.2.1, h.2.2.2.1.trans rfl, h.2.2.2.2.2.2.trans rfl⟩

end LastFm
